import Mathlib

/-!
Verification development for the donationroulette repository.

The TypeScript sources are shallowly embedded as Lean definitions:

* `src/lib/charities.ts`  → `Charity`, `CHARITIES`, `DONATION_AMOUNTS`
* `src/lib/wallets.ts`    → `Wallet`, `wallets`
* `src/lib/walletHelper.ts` → `sendDonation`, `isWalletAvailable`
* `src/components/DonationSpinner.tsx` → `SpinnerState`, `spinnerStart`,
  `spinnerTick`, `spinnerStop` (a millisecond-step machine for the
  component's `setInterval` / `setTimeout` timers)
* `src/components/CharityPicker.tsx` → `PickerState`, `pickerStart`,
  `pickerTick`, `pickerStop`
* `src/components/DonationModal.tsx` → `ModalState`, `handleDonateWithWallet`,
  `modalRender`
* `src/app/page.tsx` → `AppState`, `stepA`, `validE`, `Reachable`

Timers are modelled by a one-millisecond `tick` function on the component
state: an active `setInterval` with period 100 fires when the new time is a
multiple of 100, a pending `setTimeout` fires when the new time reaches its
deadline, and the React effect cleanup (run when `isSpinning` changes or on
unmount) cancels both.  `Math.random()` results are passed in as rational
parameters in `[0, 1)`.
-/

namespace DonationRoulette

/-! ## Static data tables (`src/lib/charities.ts`, `src/lib/wallets.ts`) -/

/-- Charity record, from the `Charity` interface in `src/lib/charities.ts`. -/
structure Charity where
  id : String
  name : String
  description : String
  walletAddress : String
  imageUrl : Option String
deriving DecidableEq, Repr

/-- The fixed ordered set of donation amounts (`DONATION_AMOUNTS`). -/
def DONATION_AMOUNTS : List ℚ :=
  [0.05, 0.10, 0.25, 0.50, 1.00, 2.00, 5.00, 10.00]

/-- The static charity list (`CHARITIES`). -/
def CHARITIES : List Charity :=
  [ { id := "water-org"
      name := "Water.org"
      description := "Access to safe water and sanitation to families around the world through affordable financing."
      walletAddress := "0x1234567890123456789012345678901234567890"
      imageUrl := some "/images/water-org.png" },
    { id := "save-children"
      name := "Save the Children"
      description := "Giving children a healthy start, the opportunity to learn, and protection from harm."
      walletAddress := "0x2345678901234567890123456789012345678901"
      imageUrl := some "/images/save-children.png" },
    { id := "doctors-borders"
      name := "Doctors Without Borders"
      description := "Medical humanitarian organization providing aid in nearly 70 countries to people affected by conflict, epidemics, disasters, or exclusion from healthcare."
      walletAddress := "0x3456789012345678901234567890123456789012"
      imageUrl := some "/images/doctors-borders.png" },
    { id := "wwf"
      name := "World Wildlife Fund"
      description := "Leading organization in wildlife conservation and endangered species protection."
      walletAddress := "0x4567890123456789012345678901234567890123"
      imageUrl := some "/images/wwf.png" },
    { id := "unicef"
      name := "UNICEF"
      description := "Works in over 190 countries to save children\x27s lives, defend their rights, and help them fulfill their potential."
      walletAddress := "0x5678901234567890123456789012345678901234"
      imageUrl := some "/images/unicef.png" },
    { id := "acumen"
      name := "Acumen"
      description := "Changing the way the world tackles poverty by investing in sustainable businesses, leaders, and ideas."
      walletAddress := "0x6789012345678901234567890123456789012345"
      imageUrl := some "/images/acumen.png" } ]

/-- Placeholder charity used only as the (never reached) default of list
indexing; JS indexing out of range would yield `undefined`. -/
def charityFallback : Charity :=
  { id := "", name := "", description := "", walletAddress := "", imageUrl := none }

/-- Wallet descriptor, from the `Wallet` interface in `src/lib/wallets.ts`. -/
structure Wallet where
  id : String
  name : String
  iconName : String
  color : String
deriving DecidableEq, Repr

/-- The static wallet list (`wallets`). -/
def wallets : List Wallet :=
  [ { id := "metamask", name := "MetaMask", iconName := "SiMetamask", color := "#F6851B" },
    { id := "coinbase", name := "Coinbase Wallet", iconName := "SiCoinbase", color := "#0052FF" },
    { id := "walletconnect", name := "WalletConnect", iconName := "SiWalletconnect", color := "#3B99FC" },
    { id := "trustwallet", name := "Trust Wallet", iconName := "SiTrustpilot", color := "#3375BB" } ]

/-! ## JavaScript numeric helpers

JS `Math.floor` on a (here: rational) number is `Int.floor`; the JS `%`
operator truncates the quotient toward zero. -/

/-- JS truncation toward zero of a rational number. -/
def jsTrunc (x : ℚ) : ℤ := if 0 ≤ x then ⌊x⌋ else ⌈x⌉

/-- The JS `%` operator on numbers: `a - b * trunc (a / b)`. -/
def jsMod (a b : ℚ) : ℚ := a - b * jsTrunc (a / b)

/-- The JS `%` operator on integer-valued numbers (truncated remainder). -/
def jsModInt (a b : ℤ) : ℤ := a - b * (if 0 ≤ (a : ℚ) / b then ⌊(a : ℚ) / b⌋ else ⌈(a : ℚ) / b⌉)

/-! ## `DonationSpinner.tsx` -/

/-- The segment list of the dial (`const segments = DONATION_AMOUNTS`). -/
def segments : List ℚ := DONATION_AMOUNTS

/-- Number of segments (`segmentCount`), equal to 8. -/
def segmentCount : ℕ := segments.length

/-- Angular width of one segment (`segmentAngle = 360 / segmentCount`). -/
def segmentAngle : ℚ := 360 / (segmentCount : ℚ)

/-- Index of the segment the dial lands on, following the body of the
spinning effect in `DonationSpinner.tsx` (lines 241-260): a random number of
full rotations (`5 + Math.random() * 5`), plus a random segment offset
(`Math.floor(Math.random() * segmentCount) * segmentAngle`), reduced modulo
360 and divided by the segment angle, the resulting index taken modulo the
segment count.  `r1` and `r2` are the two `Math.random()` results. -/
def spinnerOutcomeIndex (r1 r2 : ℚ) : ℕ :=
  let spinRotations : ℚ := 5 + r1 * 5
  let randomSegment : ℤ := ⌊r2 * (segmentCount : ℚ)⌋
  let randomAngle : ℚ := (randomSegment : ℚ) * segmentAngle
  let newRotation : ℚ := 0 + spinRotations * 360 + randomAngle
  let normalizedRotation : ℚ := jsMod newRotation 360
  let landedSegmentIndex : ℤ := ⌊normalizedRotation / segmentAngle⌋
  (jsModInt landedSegmentIndex (segmentCount : ℤ)).toNat

/-- The amount reported by the spinner (`selectedSegment =
segments[landedSegmentIndex % segmentCount]`). -/
def spinnerOutcome (r1 r2 : ℚ) : ℚ := segments.getD (spinnerOutcomeIndex r1 r2) 0

/-- The amount displayed mid-spin by the 100ms interval, computed from the
wall clock: `(Date.now() % 1000) / 1000 * 360`, divided by the segment angle
and taken modulo the segment count (lines 265-269). -/
def displayAmount (wallTime : ℕ) : ℚ :=
  let currentRotation : ℚ := ((wallTime % 1000 : ℕ) : ℚ) / 1000 * 360
  let currentIndex : ℕ := (⌊currentRotation / segmentAngle⌋).toNat % segmentCount
  segments.getD currentIndex 0

/-- State of one `DonationSpinner` instance: the React state (`rotation` is
kept in `lastSpin`, mirroring `lastSpinRef`), the pre-computed landing
amount captured by the timeout closure, the two timer handles, and the log
of `onSpinComplete` invocations. -/
structure SpinnerState where
  time : ℕ
  wall0 : ℕ
  lastSpin : ℚ
  selectedAmount : Option ℚ
  revealingAmount : Bool
  landed : ℚ
  intervalActive : Bool
  timeoutPending : Bool
  callbacks : List ℚ
deriving DecidableEq, Repr

/-- Initial spinner state (the `useState` initialisers). -/
def spinnerInit : SpinnerState :=
  { time := 0
    wall0 := 0
    lastSpin := 0
    selectedAmount := none
    revealingAmount := false
    landed := 0
    intervalActive := false
    timeoutPending := false
    callbacks := [] }

/-- The spinning effect body when `isSpinning` becomes true: clear existing
timers, reset `lastSpinRef` to 0, reset the revealing state, compute the
rotation and the landed segment, and schedule the 100ms display interval and
the 3900ms reveal timeout.  `wall` is `Date.now()` at the moment the
interval is scheduled. -/
def spinnerStart (s : SpinnerState) (r1 r2 : ℚ) (wall : ℕ) : SpinnerState :=
  let spinRotations : ℚ := 5 + r1 * 5
  let randomSegment : ℤ := ⌊r2 * (segmentCount : ℚ)⌋
  let randomAngle : ℚ := (randomSegment : ℚ) * segmentAngle
  let newRotation : ℚ := 0 + spinRotations * 360 + randomAngle
  { time := 0
    wall0 := wall
    lastSpin := newRotation
    selectedAmount := none
    revealingAmount := false
    landed := spinnerOutcome r1 r2
    intervalActive := true
    timeoutPending := true
    callbacks := s.callbacks }

/-- Effect cleanup (run when `isSpinning` toggles or on unmount): clear both
timers. -/
def spinnerStop (s : SpinnerState) : SpinnerState :=
  { s with intervalActive := false, timeoutPending := false }

/-- Advance the spinner by one millisecond.  The display interval fires on
multiples of 100ms; the reveal timeout fires at 3900ms, clears the interval,
sets the final amount and invokes `onSpinComplete`. -/
def spinnerTick (s : SpinnerState) : SpinnerState :=
  let t := s.time + 1
  let s1 := if s.intervalActive && t % 100 == 0 then
      { s with selectedAmount := some (displayAmount (s.wall0 + t)) }
    else s
  let s2 := if s1.timeoutPending && t == 3900 then
      { s1 with
        intervalActive := false
        selectedAmount := some s1.landed
        revealingAmount := true
        timeoutPending := false
        callbacks := s1.callbacks ++ [s1.landed] }
    else s1
  { s2 with time := t }

/-- Iterate `spinnerTick`. -/
def spinnerTicks : ℕ → SpinnerState → SpinnerState
  | 0, s => s
  | n + 1, s => spinnerTick (spinnerTicks n s)

/-! ## `CharityPicker.tsx` -/

/-- The index drawn at spin start:
`Math.floor(Math.random() * CHARITIES.length)` (line 31). -/
def chosenCharityIndex (r : ℚ) : ℕ := (⌊r * (CHARITIES.length : ℚ)⌋).toNat

/-- The charity pre-selected at spin start:
`CHARITIES[Math.floor(Math.random() * CHARITIES.length)]` (line 31). -/
def chosenCharity (r : ℚ) : Charity :=
  CHARITIES.getD (chosenCharityIndex r) charityFallback

/-- State of one `CharityPicker` instance: the React state, the two timer
handles of the spinning effect, and the log of `onCharitySelected`
invocations. -/
structure PickerState where
  time : ℕ
  currentIndex : ℕ
  revealingCharity : Bool
  finalCharity : Option Charity
  intervalActive : Bool
  timeoutPending : Bool
  callbacks : List Charity
deriving DecidableEq, Repr

/-- Initial picker state (the `useState` initialisers). -/
def pickerInit : PickerState :=
  { time := 0
    currentIndex := 0
    revealingCharity := false
    finalCharity := none
    intervalActive := false
    timeoutPending := false
    callbacks := [] }

/-- The spinning effect body when `isSpinning` becomes true (lines 20-38):
reset the revealing state, schedule the 100ms cycling interval, pre-select
the final charity, and schedule the 4000ms reveal timeout.  The cleanup of
the previous effect run has already cleared the previous timers; `r` is the
`Math.random()` result. -/
def pickerStart (s : PickerState) (r : ℚ) : PickerState :=
  { time := 0
    currentIndex := s.currentIndex
    revealingCharity := false
    finalCharity := some (chosenCharity r)
    intervalActive := true
    timeoutPending := true
    callbacks := s.callbacks }

/-- Effect cleanup (lines 41-44): clear both timers. -/
def pickerStop (s : PickerState) : PickerState :=
  { s with intervalActive := false, timeoutPending := false }

/-- Advance the picker by one millisecond.  The cycling interval advances
`currentIndex` modulo the charity count on multiples of 100ms; the reveal
timeout fires at 4000ms, sets `revealingCharity` and invokes
`onCharitySelected` with the pre-selected charity (it does not clear the
interval; only the cleanup does). -/
def pickerTick (s : PickerState) : PickerState :=
  let t := s.time + 1
  let s1 := if s.intervalActive && t % 100 == 0 then
      { s with currentIndex := (s.currentIndex + 1) % CHARITIES.length }
    else s
  let s2 := if s1.timeoutPending && t == 4000 then
      { s1 with
        revealingCharity := true
        timeoutPending := false
        callbacks := s1.callbacks ++ [s1.finalCharity.getD charityFallback] }
    else s1
  { s2 with time := t }

/-- Iterate `pickerTick`. -/
def pickerTicks : ℕ → PickerState → PickerState
  | 0, s => s
  | n + 1, s => pickerTick (pickerTicks n s)

/-- The name rendered by `CharityPicker` (lines 47-60): the cycling charity
while spinning, else the final charity when present, else the first. -/
def pickerDisplay (isSpinning : Bool) (s : PickerState) : String :=
  if isSpinning then (CHARITIES.getD s.currentIndex charityFallback).name
  else
    match s.finalCharity with
    | some c => c.name
    | none => (CHARITIES.getD 0 charityFallback).name

/-! ## `walletHelper.ts` -/

/-- Result shape of `sendDonation`. -/
structure DonationResult where
  success : Bool
  txHash : Option String
  error : Option String
deriving DecidableEq, Repr

/-- The 16 lowercase hex digits; `hexChar n` models
`n.toString(16)` for `n < 16`. -/
def hexCharList : List Char := "0123456789abcdef".data

/-- JS `Math.floor(Math.random() * 16).toString(16)` for one draw. -/
def hexChar (n : ℕ) : Char := hexCharList.getD n '0'

/-- The randomly generated transaction hash:
`'0x' + Array.from({length: 64}, () => Math.floor(Math.random() * 16).toString(16)).join('')`,
with the 64 `Math.random()` draws passed in as `rs`. -/
def mkTxHash (rs : List ℚ) : String :=
  "0x" ++ String.mk (rs.map fun r => hexChar (⌊r * 16⌋).toNat)

/-- The `sendDonation` stub: after a fixed delay it always resolves with
`success: true` and the generated hash; the `error` field is never set. -/
def sendDonation (_walletId _recipientAddress : String) (_amount : ℚ)
    (rs : List ℚ) : DonationResult :=
  { success := true, txHash := some (mkTxHash rs), error := none }

/-- The `isWalletAvailable` check: for `metamask` it requires a
browser-injected `window.ethereum` (the environment flag `hasEthereum`);
every other id defaults to true. -/
def isWalletAvailable (hasEthereum : Bool) (walletId : String) : Bool :=
  if walletId == "metamask" then hasEthereum else true

/-! ## `DonationModal.tsx` -/

/-- Local state of the modal (the `useState` cells that drive which view is
rendered; `modalCharity` and `availableWallets` are tracked separately). -/
structure ModalState where
  isProcessing : Bool
  error : Option String
deriving DecidableEq, Repr

/-- Initial modal state. -/
def modalInit : ModalState := { isProcessing := false, error := none }

/-- Outcome of the awaited `sendDonation` promise: it either resolves with a
`DonationResult` or rejects with an `Error` carrying a message. -/
inductive SendOutcome where
  | resolved (r : DonationResult)
  | rejected (msg : String)
deriving DecidableEq, Repr

/-- The error message stored by the `catch` block of
`handleDonateWithWallet` for a failing outcome: the rejection's message, or
for a resolved failure `result.error || 'Transaction failed'` (a missing or
empty `error` string is falsy in JS and falls back to the default). -/
def failureMessage : SendOutcome → String
  | .rejected msg => msg
  | .resolved r =>
    match r.error with
    | some e => if e == "" then "Transaction failed" else e
    | none => "Transaction failed"

/-- Whether the outcome takes the failure path of `handleDonateWithWallet`:
a rejection, or a resolved result failing the JS-truthy test
`result.success && result.txHash` (a missing or empty hash is falsy). -/
def isFailureOutcome : SendOutcome → Bool
  | .rejected _ => true
  | .resolved r => !(r.success && r.txHash.getD "" != "")

/-- Big-step model of `handleDonateWithWallet` (lines 43-61) once the
awaited promise has settled with outcome `o`: returns the modal state after
the `try/catch/finally` and the list of `onDonationComplete` invocations.
On success the hash is reported upward; otherwise the caught message is
stored in `error`; `finally` clears `isProcessing`. -/
def handleDonateWithWallet (m : ModalState) (o : SendOutcome) :
    ModalState × List String :=
  match o with
  | .resolved r =>
    if r.success && r.txHash.getD "" != "" then
      ({ m with isProcessing := false, error := none }, [r.txHash.getD ""])
    else ({ m with isProcessing := false, error := some (failureMessage o) }, [])
  | .rejected _ =>
    ({ m with isProcessing := false, error := some (failureMessage o) }, [])

/-- The "Try Again" control of the error view (line 151): `setError(null)`.
It performs no submission; it only clears the error. -/
def retryAction (m : ModalState) : ModalState := { m with error := none }

/-- Which view the modal body renders (lines 69-191). -/
inductive ModalView where
  | completed (txHash : String) (charityName : String) (amount : ℚ)
  | processing
  | errorRetry (msg : String)
  | walletSelect (available : List Wallet)
deriving DecidableEq, Repr

/-- The modal's render function: the completed view when the `txHash` prop
is set; else the processing spinner; else the error view when `error` is
truthy (a non-empty string); else the wallet-selection list. -/
def modalRender (txHash : Option String) (m : ModalState)
    (available : List Wallet) (charity : Charity) (amount : ℚ) : ModalView :=
  match txHash with
  | some h => .completed h charity.name amount
  | none =>
    if m.isProcessing then .processing
    else
      match m.error with
      | some e => if e == "" then .walletSelect available else .errorRetry e
      | none => .walletSelect available

/-- The wallet list offered by the modal:
`wallets.filter(wallet => isWalletAvailable(wallet.id))` (line 36). -/
def availableWallets (hasEthereum : Bool) : List Wallet :=
  wallets.filter fun w => isWalletAvailable hasEthereum w.id

/-! ## `page.tsx` — the root orchestrator

The root state mirrors the five `useState` cells of `Home`.  The TS type of
`selectedCharity` is non-nullable `Charity`; it is embedded as
`Option Charity` so that the spec's notion of an *absent* charity is even
statable — the code initialises it to `CHARITIES[0]` and only ever assigns
charities to it, so it is provably never `none` in a reachable state.

Three instrumentation fields (`amountReported`, `charityReported`,
`dismissedSince`) record, for the current spin session, whether each child
callback has fired and whether the dialog was dismissed; they let the spec's
talk of "callbacks reported for the current spin" be stated. -/

/-- Root orchestrator state (the `useState` cells of `Home`, plus ghost
instrumentation for the current spin session). -/
structure AppState where
  isSpinning : Bool
  selectedAmount : Option ℚ
  selectedCharity : Option Charity
  showModal : Bool
  txHash : Option String
  amountReported : Bool
  charityReported : Bool
  dismissedSince : Bool
deriving DecidableEq, Repr

/-- Initial root state: not spinning, no amount, charity preset to
`CHARITIES[0]`, modal closed, no receipt. -/
def initState : AppState :=
  { isSpinning := false
    selectedAmount := none
    selectedCharity := some (CHARITIES.getD 0 charityFallback)
    showModal := false
    txHash := none
    amountReported := false
    charityReported := false
    dismissedSince := false }

/-- `handleSpinComplete` (lines 26-32): store the amount and open the modal
immediately.  Ghost: the amount callback has now been reported. -/
def handleSpinComplete (s : AppState) (amount : ℚ) : AppState :=
  { s with
    selectedAmount := some amount
    showModal := true
    amountReported := true }

/-- `handleCharitySelected` (lines 34-37): store the charity.  Ghost: the
charity callback has now been reported. -/
def handleCharitySelected (s : AppState) (c : Charity) : AppState :=
  { s with selectedCharity := some c, charityReported := true }

/-- `handleStartSpin` (lines 39-55): guarded by `isSpinning`; on entry set
the spinning flag and reset the previous amount, receipt and modal flag (the
charity is not touched), and schedule the 4000ms end-of-animation timeout.
Ghost: a fresh spin session begins. -/
def handleStartSpin (s : AppState) : AppState :=
  if s.isSpinning then s
  else
    { s with
      isSpinning := true
      selectedAmount := none
      txHash := none
      showModal := false
      amountReported := false
      charityReported := false
      dismissedSince := false }

/-- The user-facing spin trigger: the button (line 93-97) is
`disabled={isSpinning || showModal}`, so a click reaches `handleStartSpin`
only when neither holds. -/
def spinButtonClick (s : AppState) : AppState :=
  if s.isSpinning || s.showModal then s else handleStartSpin s

/-- `handleDonationComplete` (lines 57-59): store the receipt hash. -/
def handleDonationComplete (s : AppState) (hash : String) : AppState :=
  { s with txHash := some hash }

/-- `handleCloseModal` (lines 61-63): only hides the modal.  Ghost: the
dialog has been dismissed during this session. -/
def handleCloseModal (s : AppState) : AppState :=
  { s with showModal := false, dismissedSince := true }

/-- Whether the confirmation dialog is rendered (line 111):
`showModal && selectedAmount !== null && selectedCharity`. -/
def rendered (s : AppState) : Bool :=
  s.showModal && s.selectedAmount.isSome && s.selectedCharity.isSome

/-- Events that drive the root orchestrator. -/
inductive HEvent where
  | spinClick
  | spinComplete (amount : ℚ)
  | charitySelected (c : Charity)
  | spinEnd
  | donationComplete (hash : String)
  | closeModal
deriving DecidableEq, Repr

/-- Root transition function: dispatch each event to its handler.
`spinEnd` is the 4000ms timeout of `handleStartSpin` clearing the spinning
flag. -/
def stepA (s : AppState) : HEvent → AppState
  | .spinClick => spinButtonClick s
  | .spinComplete a => handleSpinComplete s a
  | .charitySelected c => handleCharitySelected s c
  | .spinEnd => { s with isSpinning := false }
  | .donationComplete h => handleDonationComplete s h
  | .closeModal => handleCloseModal s

/-- Which events can actually occur in a state, per the timing of the app: a
click attempt is always possible; the spinner's amount callback fires at
3900ms of a spin (while still spinning, once, with an amount from the fixed
set — established about `DonationSpinner` separately); the picker's charity
callback fires at 4000ms (after the amount, once, with a charity from the
fixed list); the 4000ms end timeout fires last; donation completion needs
the open modal and no receipt yet; dismissal needs the open modal. -/
def validE (s : AppState) : HEvent → Prop
  | .spinClick => True
  | .spinComplete a =>
    s.isSpinning = true ∧ s.amountReported = false ∧ a ∈ DONATION_AMOUNTS
  | .charitySelected c =>
    s.isSpinning = true ∧ s.amountReported = true ∧ s.charityReported = false ∧
      c ∈ CHARITIES
  | .spinEnd => s.isSpinning = true ∧ s.amountReported = true ∧ s.charityReported = true
  | .donationComplete _ => s.showModal = true ∧ s.txHash = none
  | .closeModal => s.showModal = true

/-- States of the root orchestrator reachable from `initState` by valid
events. -/
inductive Reachable : AppState → Prop
  | init : Reachable initState
  | step (s : AppState) (e : HEvent) (hs : Reachable s) (hv : validE s e) :
      Reachable (stepA s e)



/-! ## Derived definitions used by the theorems -/

/-- Inductive invariant of the root orchestrator: the modal flag equals
"amount callback reported and not dismissed since"; a dismissal implies the
amount callback had fired; an open modal implies an amount is present; and
the selected charity is always some member of the fixed list. -/
def rootInv (s : AppState) : Prop :=
  s.showModal = (s.amountReported && !s.dismissedSince) ∧
  (s.dismissedSince = true → s.amountReported = true) ∧
  (s.showModal = true → s.selectedAmount.isSome = true) ∧
  ∃ c, s.selectedCharity = some c ∧ c ∈ CHARITIES

/-- The root state after a spin is triggered from `initState` and the
spinner's amount callback has fired (at 3900ms) with amount 1.00, before the
picker's charity callback (at 4000ms): the dialog is already open. -/
def midWindowState : AppState := stepA (stepA initState .spinClick) (.spinComplete 1)

/-- A concrete dialog-open state used to exercise the dismissal and
spin-guard theorems. -/
def dialogOpenState : AppState :=
  { isSpinning := false
    selectedAmount := some 1
    selectedCharity := some (CHARITIES.getD 0 charityFallback)
    showModal := true
    txHash := some "0xffff"
    amountReported := true
    charityReported := true
    dismissedSince := false }

/-- The parent applies `handleDonationComplete` (store the hash) once per
reported completion; an empty report list leaves the receipt unchanged. -/
def applyDonationCallbacks (t : Option String) (cbs : List String) : Option String :=
  cbs.foldl (fun _ h => some h) t

/-! ## Timer-machine lemmas for the two selector components -/



theorem spinnerTick_time (s : SpinnerState) : (spinnerTick s).time = s.time + 1 := rfl

theorem spinnerTick_frozen (s : SpinnerState) (hI : s.intervalActive = false)
    (hT : s.timeoutPending = false) : spinnerTick s = { s with time := s.time + 1 } := by
  simp [spinnerTick, hI, hT]

theorem spinnerTicks_frozen (s : SpinnerState) (hI : s.intervalActive = false)
    (hT : s.timeoutPending = false) (n : ℕ) :
    spinnerTicks n s = { s with time := s.time + n } := by
  induction n with
  | zero => simp [spinnerTicks]
  | succ n ih =>
    rw [spinnerTicks, ih, spinnerTick_frozen { s with time := s.time + n } hI hT]
    simp [Nat.add_assoc]

theorem spinnerTick_pending (s : SpinnerState) (hT : s.timeoutPending = true)
    (ht : s.time + 1 ≠ 3900) :
    (spinnerTick s).callbacks = s.callbacks ∧
    (spinnerTick s).timeoutPending = true ∧
    (spinnerTick s).intervalActive = s.intervalActive ∧
    (spinnerTick s).landed = s.landed ∧
    (spinnerTick s).revealingAmount = s.revealingAmount := by
  have h2 : (s.time + 1 == 3900) = false := by simpa using ht
  simp only [spinnerTick]
  split <;> simp_all



theorem spinnerRun_before (s0 : SpinnerState) (r1 r2 : ℚ) (w : ℕ) (k : ℕ) (hk : k < 3900) :
    (spinnerTicks k (spinnerStart s0 r1 r2 w)).callbacks = s0.callbacks ∧
    (spinnerTicks k (spinnerStart s0 r1 r2 w)).timeoutPending = true ∧
    (spinnerTicks k (spinnerStart s0 r1 r2 w)).intervalActive = true ∧
    (spinnerTicks k (spinnerStart s0 r1 r2 w)).landed = spinnerOutcome r1 r2 ∧
    (spinnerTicks k (spinnerStart s0 r1 r2 w)).revealingAmount = false ∧
    (spinnerTicks k (spinnerStart s0 r1 r2 w)).time = k := by
  induction k with
  | zero => exact ⟨rfl, rfl, rfl, rfl, rfl, rfl⟩
  | succ k ih =>
    have hk' : k < 3900 := Nat.lt_of_succ_lt hk
    obtain ⟨hc, hT, hI, hl, hr, htime⟩ := ih hk'
    have ht : (spinnerTicks k (spinnerStart s0 r1 r2 w)).time + 1 ≠ 3900 := by
      rw [htime]; omega
    obtain ⟨pc, pT, pI, pl, pr⟩ := spinnerTick_pending _ hT ht
    refine ⟨?_, ?_, ?_, ?_, ?_, ?_⟩
    · rw [spinnerTicks, pc, hc]
    · rw [spinnerTicks, pT]
    · rw [spinnerTicks, pI, hI]
    · rw [spinnerTicks, pl, hl]
    · rw [spinnerTicks, pr, hr]
    · rw [spinnerTicks, spinnerTick_time, htime]



theorem spinnerTick_fire (s : SpinnerState) (hT : s.timeoutPending = true)
    (ht : s.time + 1 = 3900) :
    spinnerTick s =
      { s with
        intervalActive := false
        selectedAmount := some s.landed
        revealingAmount := true
        timeoutPending := false
        callbacks := s.callbacks ++ [s.landed]
        time := s.time + 1 } := by
  cases hIA : s.intervalActive <;>
    simp [spinnerTick, ht, hT, hIA]

theorem spinnerTicks_add (m n : ℕ) (s : SpinnerState) :
    spinnerTicks (n + m) s = spinnerTicks m (spinnerTicks n s) := by
  induction m with
  | zero => rfl
  | succ m ih => rw [← Nat.add_assoc, spinnerTicks, ih, spinnerTicks]

theorem spinnerRun_done_aux (s : SpinnerState) (m : ℕ)
    (hT : s.timeoutPending = true) (htime : s.time = 3899) :
    (spinnerTicks m (spinnerTick s)).callbacks = s.callbacks ++ [s.landed] ∧
    (spinnerTicks m (spinnerTick s)).selectedAmount = some s.landed ∧
    (spinnerTicks m (spinnerTick s)).intervalActive = false ∧
    (spinnerTicks m (spinnerTick s)).timeoutPending = false ∧
    (spinnerTicks m (spinnerTick s)).revealingAmount = true := by
  have hfire := spinnerTick_fire s hT (by rw [htime])
  rw [hfire]
  rw [spinnerTicks_frozen
    { s with
      intervalActive := false
      selectedAmount := some s.landed
      revealingAmount := true
      timeoutPending := false
      callbacks := s.callbacks ++ [s.landed]
      time := s.time + 1 } rfl rfl m]
  exact ⟨rfl, rfl, rfl, rfl, rfl⟩

theorem spinnerRun_done (s0 : SpinnerState) (r1 r2 : ℚ) (w : ℕ) (n : ℕ) (hn : 3900 ≤ n) :
    (spinnerTicks n (spinnerStart s0 r1 r2 w)).callbacks =
      s0.callbacks ++ [spinnerOutcome r1 r2] ∧
    (spinnerTicks n (spinnerStart s0 r1 r2 w)).selectedAmount =
      some (spinnerOutcome r1 r2) ∧
    (spinnerTicks n (spinnerStart s0 r1 r2 w)).intervalActive = false ∧
    (spinnerTicks n (spinnerStart s0 r1 r2 w)).timeoutPending = false ∧
    (spinnerTicks n (spinnerStart s0 r1 r2 w)).revealingAmount = true := by
  obtain ⟨hc, hT, hI, hl, hr, htime⟩ := spinnerRun_before s0 r1 r2 w 3899 (by omega)
  obtain ⟨m, rfl⟩ : ∃ m, n = 3900 + m := ⟨n - 3900, by omega⟩
  have h39 : spinnerTicks (3900 + m) (spinnerStart s0 r1 r2 w)
      = spinnerTicks m (spinnerTick (spinnerTicks 3899 (spinnerStart s0 r1 r2 w))) := by
    rw [spinnerTicks_add m 3900, show (3900 : ℕ) = 3899 + 1 from rfl, spinnerTicks]
  rw [h39]
  obtain ⟨qc, qa, qI, qT, qr⟩ := spinnerRun_done_aux _ m hT htime
  rw [qc, qa, qI, qT, qr, hc, hl]
  exact ⟨rfl, rfl, rfl, rfl, rfl⟩



theorem pickerTick_time (s : PickerState) : (pickerTick s).time = s.time + 1 := rfl

theorem pickerTick_frozen (s : PickerState) (hI : s.intervalActive = false)
    (hT : s.timeoutPending = false) : pickerTick s = { s with time := s.time + 1 } := by
  simp [pickerTick, hI, hT]

theorem pickerTicks_frozen (s : PickerState) (hI : s.intervalActive = false)
    (hT : s.timeoutPending = false) (n : ℕ) :
    pickerTicks n s = { s with time := s.time + n } := by
  induction n with
  | zero => simp [pickerTicks]
  | succ n ih =>
    rw [pickerTicks, ih, pickerTick_frozen { s with time := s.time + n } hI hT]
    simp [Nat.add_assoc]

theorem pickerTick_pending (s : PickerState) (hT : s.timeoutPending = true)
    (ht : s.time + 1 ≠ 4000) :
    (pickerTick s).callbacks = s.callbacks ∧
    (pickerTick s).timeoutPending = true ∧
    (pickerTick s).intervalActive = s.intervalActive ∧
    (pickerTick s).finalCharity = s.finalCharity ∧
    (pickerTick s).revealingCharity = s.revealingCharity := by
  have h2 : (s.time + 1 == 4000) = false := by simpa using ht
  simp only [pickerTick]
  split <;> simp_all

theorem pickerRun_before (s0 : PickerState) (r : ℚ) (k : ℕ) (hk : k < 4000) :
    (pickerTicks k (pickerStart s0 r)).callbacks = s0.callbacks ∧
    (pickerTicks k (pickerStart s0 r)).timeoutPending = true ∧
    (pickerTicks k (pickerStart s0 r)).intervalActive = true ∧
    (pickerTicks k (pickerStart s0 r)).finalCharity = some (chosenCharity r) ∧
    (pickerTicks k (pickerStart s0 r)).revealingCharity = false ∧
    (pickerTicks k (pickerStart s0 r)).time = k := by
  induction k with
  | zero => exact ⟨rfl, rfl, rfl, rfl, rfl, rfl⟩
  | succ k ih =>
    have hk' : k < 4000 := Nat.lt_of_succ_lt hk
    obtain ⟨hc, hT, hI, hf, hr, htime⟩ := ih hk'
    have ht : (pickerTicks k (pickerStart s0 r)).time + 1 ≠ 4000 := by
      rw [htime]; omega
    obtain ⟨pc, pT, pI, pf, pr⟩ := pickerTick_pending _ hT ht
    refine ⟨?_, ?_, ?_, ?_, ?_, ?_⟩
    · rw [pickerTicks, pc, hc]
    · rw [pickerTicks, pT]
    · rw [pickerTicks, pI, hI]
    · rw [pickerTicks, pf, hf]
    · rw [pickerTicks, pr, hr]
    · rw [pickerTicks, pickerTick_time, htime]

theorem pickerTick_fire (s : PickerState) (hT : s.timeoutPending = true)
    (hIA : s.intervalActive = true) (ht : s.time + 1 = 4000) :
    pickerTick s =
      { s with
        currentIndex := (s.currentIndex + 1) % CHARITIES.length
        revealingCharity := true
        timeoutPending := false
        callbacks := s.callbacks ++ [s.finalCharity.getD charityFallback]
        time := s.time + 1 } := by
  simp [pickerTick, ht, hT, hIA]

theorem pickerTicks_add (m n : ℕ) (s : PickerState) :
    pickerTicks (n + m) s = pickerTicks m (pickerTicks n s) := by
  induction m with
  | zero => rfl
  | succ m ih => rw [← Nat.add_assoc, pickerTicks, ih, pickerTicks]

theorem pickerTick_noTimeout (s : PickerState) (hT : s.timeoutPending = false) :
    (pickerTick s).callbacks = s.callbacks ∧
    (pickerTick s).timeoutPending = false ∧
    (pickerTick s).finalCharity = s.finalCharity ∧
    (pickerTick s).revealingCharity = s.revealingCharity := by
  simp only [pickerTick]
  split <;> simp_all

theorem pickerTicks_noTimeout (s : PickerState) (hT : s.timeoutPending = false) (n : ℕ) :
    (pickerTicks n s).callbacks = s.callbacks ∧
    (pickerTicks n s).timeoutPending = false ∧
    (pickerTicks n s).finalCharity = s.finalCharity ∧
    (pickerTicks n s).revealingCharity = s.revealingCharity := by
  induction n with
  | zero => exact ⟨rfl, hT, rfl, rfl⟩
  | succ n ih =>
    obtain ⟨hc, hT2, hf, hr⟩ := ih
    obtain ⟨pc, pT, pf, pr⟩ := pickerTick_noTimeout _ hT2
    exact ⟨pc.trans hc, pT, pf.trans hf, pr.trans hr⟩

theorem pickerRun_done_aux (s : PickerState) (c : Charity) (m : ℕ)
    (hT : s.timeoutPending = true) (hI : s.intervalActive = true)
    (hf : s.finalCharity = some c) (htime : s.time = 3999) :
    (pickerTicks m (pickerTick s)).callbacks = s.callbacks ++ [c] ∧
    (pickerTicks m (pickerTick s)).timeoutPending = false ∧
    (pickerTicks m (pickerTick s)).finalCharity = some c ∧
    (pickerTicks m (pickerTick s)).revealingCharity = true := by
  have hfire := pickerTick_fire s hT hI (by rw [htime])
  rw [hfire]
  obtain ⟨qc, qT, qf, qr⟩ := pickerTicks_noTimeout
    { s with
      currentIndex := (s.currentIndex + 1) % CHARITIES.length
      revealingCharity := true
      timeoutPending := false
      callbacks := s.callbacks ++ [s.finalCharity.getD charityFallback]
      time := s.time + 1 } rfl m
  rw [qc, qT, qf, qr]
  refine ⟨?_, rfl, ?_, rfl⟩
  · show s.callbacks ++ [s.finalCharity.getD charityFallback] = _
    rw [hf]
    rfl
  · exact hf

theorem pickerRun_done (s0 : PickerState) (r : ℚ) (n : ℕ) (hn : 4000 ≤ n) :
    (pickerTicks n (pickerStart s0 r)).callbacks = s0.callbacks ++ [chosenCharity r] ∧
    (pickerTicks n (pickerStart s0 r)).timeoutPending = false ∧
    (pickerTicks n (pickerStart s0 r)).finalCharity = some (chosenCharity r) ∧
    (pickerTicks n (pickerStart s0 r)).revealingCharity = true := by
  obtain ⟨hc, hT, hI, hf, hr, htime⟩ := pickerRun_before s0 r 3999 (by omega)
  obtain ⟨m, rfl⟩ : ∃ m, n = 4000 + m := ⟨n - 4000, by omega⟩
  have h40 : pickerTicks (4000 + m) (pickerStart s0 r)
      = pickerTicks m (pickerTick (pickerTicks 3999 (pickerStart s0 r))) := by
    rw [pickerTicks_add m 4000, show (4000 : ℕ) = 3999 + 1 from rfl, pickerTicks]
  rw [h40]
  obtain ⟨qc, qT, qf, qr⟩ := pickerRun_done_aux _ _ m hT hI hf htime
  rw [qc, qT, qf, qr, hc]
  exact ⟨rfl, rfl, rfl, rfl⟩



theorem jsMod_eq_fract (a b : ℚ) (ha : 0 ≤ a) (hb : 0 < b) :
    jsMod a b = b * Int.fract (a / b) := by
  unfold jsMod jsTrunc
  rw [if_pos (div_nonneg ha hb.le), Int.fract]
  have hbne : b ≠ 0 := ne_of_gt hb
  field_simp

theorem jsMod_nonneg (a b : ℚ) (ha : 0 ≤ a) (hb : 0 < b) : 0 ≤ jsMod a b := by
  rw [jsMod_eq_fract a b ha hb]
  exact mul_nonneg hb.le (Int.fract_nonneg _)

theorem jsMod_lt (a b : ℚ) (ha : 0 ≤ a) (hb : 0 < b) : jsMod a b < b := by
  rw [jsMod_eq_fract a b ha hb]
  calc b * Int.fract (a / b) < b * 1 :=
        mul_lt_mul_of_pos_left (Int.fract_lt_one _) hb
    _ = b := mul_one b

theorem jsModInt_eq_self (a b : ℤ) (ha : 0 ≤ a) (hb : 0 < b) (hab : a < b) :
    jsModInt a b = a := by
  unfold jsModInt
  have hb' : (0 : ℚ) < (b : ℚ) := by exact_mod_cast hb
  have hdiv : (0 : ℚ) ≤ (a : ℚ) / (b : ℚ) :=
    div_nonneg (by exact_mod_cast ha) hb'.le
  rw [if_pos hdiv]
  have hfl : ⌊(a : ℚ) / (b : ℚ)⌋ = 0 := by
    rw [Int.floor_eq_zero_iff]
    constructor
    · exact hdiv
    · rw [div_lt_one hb']
      exact_mod_cast hab
  rw [hfl]
  ring

theorem segmentCount_eq : segmentCount = 8 := rfl

theorem segmentAngle_eq : segmentAngle = 45 := by
  norm_num [segmentAngle, segmentCount_eq]

theorem spinnerOutcomeIndex_lt (r1 r2 : ℚ) (h1 : 0 ≤ r1) (h2 : 0 ≤ r2) :
    spinnerOutcomeIndex r1 r2 < segmentCount := by
  show (jsModInt
      ⌊jsMod (0 + (5 + r1 * 5) * 360 + (⌊r2 * (segmentCount : ℚ)⌋ : ℚ) * segmentAngle) 360 /
        segmentAngle⌋ (segmentCount : ℤ)).toNat < segmentCount
  rw [segmentAngle_eq, segmentCount_eq]
  simp only [Nat.cast_ofNat]
  have hseg : (0 : ℤ) ≤ ⌊r2 * (8 : ℚ)⌋ := Int.floor_nonneg.mpr (by positivity)
  have hnR : (0 : ℚ) ≤ 0 + (5 + r1 * 5) * 360 + (⌊r2 * (8 : ℚ)⌋ : ℚ) * 45 := by
    have h : (0 : ℚ) ≤ (⌊r2 * (8 : ℚ)⌋ : ℚ) := by exact_mod_cast hseg
    nlinarith
  have hm0 := jsMod_nonneg _ 360 hnR (by norm_num)
  have hm1 := jsMod_lt _ 360 hnR (by norm_num)
  generalize hgen :
    jsMod (0 + (5 + r1 * 5) * 360 + (⌊r2 * (8 : ℚ)⌋ : ℚ) * 45) 360 = y at hm0 hm1 ⊢
  have hfl0 : (0 : ℤ) ≤ ⌊y / 45⌋ := Int.floor_nonneg.mpr (div_nonneg hm0 (by norm_num))
  have hfl1 : ⌊y / 45⌋ < 8 := by
    rw [Int.floor_lt]
    push_cast
    rw [div_lt_iff₀ (by norm_num : (0 : ℚ) < 45)]
    linarith
  rw [jsModInt_eq_self _ _ hfl0 (by norm_num) hfl1]
  omega

theorem spinnerOutcome_mem (r1 r2 : ℚ) (h1 : 0 ≤ r1) (h2 : 0 ≤ r2) :
    spinnerOutcome r1 r2 ∈ DONATION_AMOUNTS := by
  have hlt : spinnerOutcomeIndex r1 r2 < segments.length :=
    spinnerOutcomeIndex_lt r1 r2 h1 h2
  unfold spinnerOutcome
  rw [List.getD_eq_getElem segments 0 hlt]
  exact List.getElem_mem hlt

theorem CHARITIES_length : CHARITIES.length = 6 := rfl

theorem chosenCharityIndex_lt (r : ℚ) (h0 : 0 ≤ r) (h1 : r < 1) :
    chosenCharityIndex r < CHARITIES.length := by
  unfold chosenCharityIndex
  rw [CHARITIES_length]
  simp only [Nat.cast_ofNat]
  have ha : (0 : ℤ) ≤ ⌊r * (6 : ℚ)⌋ := Int.floor_nonneg.mpr (by positivity)
  have hb : ⌊r * (6 : ℚ)⌋ < 6 := by
    rw [Int.floor_lt]
    push_cast
    nlinarith
  omega

theorem chosenCharity_mem (r : ℚ) (h0 : 0 ≤ r) (h1 : r < 1) :
    chosenCharity r ∈ CHARITIES := by
  have hlt : chosenCharityIndex r < CHARITIES.length := chosenCharityIndex_lt r h0 h1
  unfold chosenCharity
  rw [List.getD_eq_getElem CHARITIES charityFallback hlt]
  exact List.getElem_mem hlt

theorem chosenCharityIndex_eq_iff (r : ℚ) (h0 : 0 ≤ r) (i : ℕ) :
    chosenCharityIndex r = i ↔ ((i : ℚ) / 6 ≤ r ∧ r < ((i : ℚ) + 1) / 6) := by
  unfold chosenCharityIndex
  rw [CHARITIES_length]
  simp only [Nat.cast_ofNat]
  have ha : (0 : ℤ) ≤ ⌊r * (6 : ℚ)⌋ := Int.floor_nonneg.mpr (by positivity)
  constructor
  · intro h
    have hfl : ⌊r * (6 : ℚ)⌋ = (i : ℤ) := by omega
    rw [Int.floor_eq_iff] at hfl
    obtain ⟨hl, hr⟩ := hfl
    constructor
    · rw [div_le_iff₀ (by norm_num : (0 : ℚ) < 6)]
      exact_mod_cast hl
    · rw [lt_div_iff₀ (by norm_num : (0 : ℚ) < 6)]
      push_cast at hr
      linarith
  · intro ⟨hl, hr⟩
    have hfl : ⌊r * (6 : ℚ)⌋ = (i : ℤ) := by
      rw [Int.floor_eq_iff]
      constructor
      · rw [div_le_iff₀ (by norm_num : (0 : ℚ) < 6)] at hl
        exact_mod_cast hl
      · rw [lt_div_iff₀ (by norm_num : (0 : ℚ) < 6)] at hr
        push_cast
        linarith
    omega

theorem reachable_inv (s : AppState) (h : Reachable s) : rootInv s := by
  induction h with
  | init =>
    refine ⟨rfl, by simp [initState], by simp [initState], ?_⟩
    exact ⟨CHARITIES.getD 0 charityFallback, rfl, List.mem_cons_self _ _⟩
  | step s e hs hv ih =>
    obtain ⟨i1, i2, i3, c, hc, hcm⟩ := ih
    cases e with
    | spinClick =>
      by_cases hb : (s.isSpinning || s.showModal) = true
      · simp only [stepA, spinButtonClick, hb, if_true]
        exact ⟨i1, i2, i3, c, hc, hcm⟩
      · have hsp : s.isSpinning = false := by
          cases hx : s.isSpinning
          · rfl
          · simp [hx] at hb
        have hsm : s.showModal = false := by
          cases hx : s.showModal
          · rfl
          · simp [hx] at hb
        have hstep : stepA s .spinClick =
            { s with
              isSpinning := true
              selectedAmount := none
              txHash := none
              showModal := false
              amountReported := false
              charityReported := false
              dismissedSince := false } := by
          simp [stepA, spinButtonClick, handleStartSpin, hb, hsp, hsm]
        rw [hstep]
        exact ⟨rfl, by simp, by simp, c, hc, hcm⟩
    | spinComplete a =>
      obtain ⟨hsp, haR, hmem⟩ := hv
      have hdS : s.dismissedSince = false := by
        cases hx : s.dismissedSince
        · rfl
        · rw [i2 hx] at haR
          exact absurd haR (by simp)
      exact ⟨by simp [stepA, handleSpinComplete, hdS],
        by simp [stepA, handleSpinComplete],
        by simp [stepA, handleSpinComplete], c, hc, hcm⟩
    | charitySelected c2 =>
      exact ⟨i1, i2, i3, c2, rfl, hv.2.2.2⟩
    | spinEnd =>
      exact ⟨i1, i2, i3, c, hc, hcm⟩
    | donationComplete h2 =>
      exact ⟨i1, i2, i3, c, hc, hcm⟩
    | closeModal =>
      have hv2 : s.showModal = true := hv
      have hand : (s.amountReported && !s.dismissedSince) = true := by
        rw [← i1]
        exact hv2
      refine ⟨by simp [stepA, handleCloseModal], ?_,
        by simp [stepA, handleCloseModal], c, hc, hcm⟩
      intro _
      show s.amountReported = true
      exact ((Bool.and_eq_true _ _).mp hand).1


/-! ## Claim theorems, witnesses and counterexamples -/

theorem midWindowState_reachable : Reachable midWindowState :=
  Reachable.step _ _ (Reachable.step initState .spinClick Reachable.init trivial)
    ⟨rfl, rfl, by norm_num [DONATION_AMOUNTS]⟩

/-- C1 (amended): in every reachable root state the confirmation dialog is
rendered if and only if the amount callback of the current spin has been
reported and the dialog has not been dismissed since.  The charity callback
is not required: the dialog opens on the amount callback (3900ms), before
the charity callback (4000ms), displaying the previous charity. -/
theorem c1_dialog_iff_amount_reported (s : AppState) (h : Reachable s) :
    rendered s = true ↔ (s.amountReported = true ∧ s.dismissedSince = false) := by
  obtain ⟨i1, i2, i3, c, hc, hcm⟩ := reachable_inv s h
  constructor
  · intro hr
    have hsm : s.showModal = true := by
      have := (Bool.and_eq_true _ _).mp ((Bool.and_eq_true _ _).mp hr).1
      exact this.1
    rw [i1] at hsm
    obtain ⟨ha, hd⟩ := (Bool.and_eq_true _ _).mp hsm
    refine ⟨ha, ?_⟩
    cases hx : s.dismissedSince
    · rfl
    · rw [hx] at hd
      exact absurd hd (by simp)
  · intro ⟨ha, hd⟩
    have hsm : s.showModal = true := by
      rw [i1, ha, hd]
      rfl
    have hamt := i3 hsm
    unfold rendered
    rw [hsm, hamt, hc]
    rfl

/-- C1 witness: the amended invariant instantiated at the initial state. -/
theorem c1_witness :
    rendered initState = true ↔
      (initState.amountReported = true ∧ initState.dismissedSince = false) :=
  c1_dialog_iff_amount_reported initState Reachable.init

/-- C1 counterexample: after a spin start and the amount callback, the
dialog is rendered although the charity callback of the current spin has
not been reported, refuting the claimed "both callbacks" iff. -/
theorem c1_counterexample :
    Reachable midWindowState ∧ rendered midWindowState = true ∧
    midWindowState.charityReported = false ∧ midWindowState.dismissedSince = false :=
  ⟨midWindowState_reachable, rfl, rfl, rfl⟩



/-- C2 (amended): dismissing the dialog only clears the dialog flag; the
selected amount, selected charity and receipt are left unchanged by the
dismissal itself, and are cleared (amount and receipt; the charity is
retained) only at the start of the next spin. -/
theorem c2_close_only_hides (s : AppState) (h : s.showModal = true) :
    (stepA s .closeModal).showModal = false ∧
    (stepA s .closeModal).selectedAmount = s.selectedAmount ∧
    (stepA s .closeModal).selectedCharity = s.selectedCharity ∧
    (stepA s .closeModal).txHash = s.txHash ∧
    (s.isSpinning = false →
      (stepA (stepA s .closeModal) .spinClick).selectedAmount = none ∧
      (stepA (stepA s .closeModal) .spinClick).txHash = none ∧
      (stepA (stepA s .closeModal) .spinClick).isSpinning = true ∧
      (stepA (stepA s .closeModal) .spinClick).selectedCharity = s.selectedCharity) := by
  refine ⟨rfl, rfl, rfl, rfl, ?_⟩
  intro hsp
  simp [stepA, handleCloseModal, spinButtonClick, handleStartSpin, hsp]

/-- C2 witness: the amended dismissal behaviour at a concrete open-dialog
state. -/
theorem c2_witness :
    dialogOpenState.showModal = true ∧
    (stepA dialogOpenState .closeModal).showModal = false ∧
    (stepA dialogOpenState .closeModal).selectedAmount = some 1 ∧
    (stepA dialogOpenState .closeModal).txHash = some "0xffff" :=
  ⟨rfl, (c2_close_only_hides dialogOpenState rfl).1,
    ((c2_close_only_hides dialogOpenState rfl).2.1).trans rfl,
    ((c2_close_only_hides dialogOpenState rfl).2.2.2.1).trans rfl⟩

/-- C2 counterexample: a reachable state with the dialog open in which
dismissal leaves the selected amount (and charity) present, refuting the
claim that dismissal clears all ephemeral session fields. -/
theorem c2_counterexample :
    Reachable midWindowState ∧ midWindowState.showModal = true ∧
    (stepA midWindowState .closeModal).selectedAmount = some 1 ∧
    (stepA midWindowState .closeModal).selectedAmount ≠ none ∧
    (stepA midWindowState .closeModal).selectedCharity ≠ none :=
  ⟨midWindowState_reachable, rfl, rfl, by simp [midWindowState, stepA, initState,
    spinButtonClick, handleStartSpin, handleSpinComplete, handleCloseModal],
    by simp [midWindowState, stepA, initState,
      spinButtonClick, handleStartSpin, handleSpinComplete, handleCloseModal]⟩

/-- C3 (amended): from any state in which a spin may start, the trigger
sets the spinning flag, clears the prior amount and receipt and closes the
dialog, but retains the selected charity. -/
theorem c3_spin_start_resets (s : AppState) (h1 : s.isSpinning = false)
    (h2 : s.showModal = false) :
    (stepA s .spinClick).isSpinning = true ∧
    (stepA s .spinClick).selectedAmount = none ∧
    (stepA s .spinClick).txHash = none ∧
    (stepA s .spinClick).showModal = false ∧
    (stepA s .spinClick).selectedCharity = s.selectedCharity := by
  simp [stepA, spinButtonClick, handleStartSpin, h1, h2]

/-- C3 witness: the amended spin-start reset at the initial state. -/
theorem c3_witness :
    initState.isSpinning = false ∧ initState.showModal = false ∧
    (stepA initState .spinClick).isSpinning = true ∧
    (stepA initState .spinClick).selectedAmount = none ∧
    (stepA initState .spinClick).txHash = none :=
  ⟨rfl, rfl, (c3_spin_start_resets initState rfl rfl).1,
    (c3_spin_start_resets initState rfl rfl).2.1,
    (c3_spin_start_resets initState rfl rfl).2.2.1⟩

/-- C3 counterexample: at the initial state (where a spin is permitted to
start) the trigger leaves the selected charity present, refuting the claim
that the prior charity is cleared (absent) in the post-state. -/
theorem c3_counterexample :
    initState.isSpinning = false ∧ initState.showModal = false ∧
    (stepA initState .spinClick).selectedCharity = some (CHARITIES.getD 0 charityFallback) ∧
    (stepA initState .spinClick).selectedCharity ≠ none :=
  ⟨rfl, rfl, rfl, by simp [stepA, initState, spinButtonClick, handleStartSpin]⟩

/-- C4: whenever the spinning flag is set or the dialog is open, the spin
trigger (the button click, disabled in exactly these states, plus the
`handleStartSpin` guard) leaves the entire orchestrator state unchanged. -/
theorem c4_spin_trigger_noop (s : AppState)
    (h : s.isSpinning = true ∨ s.showModal = true) :
    stepA s .spinClick = s := by
  rcases h with h | h <;> simp [stepA, spinButtonClick, h]

/-- C4 witness: the guard at a concrete dialog-open state. -/
theorem c4_witness :
    (dialogOpenState.isSpinning = true ∨ dialogOpenState.showModal = true) ∧
    stepA dialogOpenState .spinClick = dialogOpenState :=
  ⟨Or.inr rfl, c4_spin_trigger_noop dialogOpenState (Or.inr rfl)⟩

/-- C10: in every reachable root state the selected charity is present and
an element of the fixed list (it starts as the first charity and is only
overwritten by reported list members), so the render guard on charity
presence never blocks: the dialog renders exactly when the modal flag is
set and an amount is present; and there is a reachable state in which the
dialog is open before the current spin's charity callback has fired. -/
theorem c10_charity_always_present (s : AppState) (h : Reachable s) :
    (∃ c, s.selectedCharity = some c ∧ c ∈ CHARITIES) ∧
    rendered s = (s.showModal && s.selectedAmount.isSome) ∧
    initState.selectedCharity = some (CHARITIES.getD 0 charityFallback) ∧
    (∃ s2, Reachable s2 ∧ rendered s2 = true ∧ s2.charityReported = false) := by
  obtain ⟨i1, i2, i3, c, hc, hcm⟩ := reachable_inv s h
  refine ⟨⟨c, hc, hcm⟩, ?_, rfl, midWindowState, midWindowState_reachable, rfl, rfl⟩
  unfold rendered
  rw [hc]
  simp

/-- C10 witness: the invariant instantiated at the initial state. -/
theorem c10_witness :
    rendered initState = (initState.showModal && initState.selectedAmount.isSome) ∧
    initState.selectedCharity = some (CHARITIES.getD 0 charityFallback) :=
  ⟨(c10_charity_always_present initState Reachable.init).2.1,
    (c10_charity_always_present initState Reachable.init).2.2.1⟩



/-- C5: a spin cycle that runs to completion invokes the amount callback
exactly once (for every horizon past 3900ms the log holds exactly one
entry), with a value from the fixed 8-element amount set, equal to the
rotation-based selection `segments[⌊(rotation mod 360) / segmentAngle⌋ %
segmentCount]`. -/
theorem c5_amount_once_in_set (r1 r2 : ℚ) (s0 : SpinnerState) (w n : ℕ)
    (h10 : 0 ≤ r1) (h11 : r1 < 1) (h20 : 0 ≤ r2) (h21 : r2 < 1)
    (hcb : s0.callbacks = []) (hn : 3900 ≤ n) :
    (spinnerTicks n (spinnerStart s0 r1 r2 w)).callbacks = [spinnerOutcome r1 r2] ∧
    spinnerOutcome r1 r2 ∈ DONATION_AMOUNTS ∧
    spinnerOutcome r1 r2 = segments.getD (spinnerOutcomeIndex r1 r2) 0 := by
  obtain ⟨hc, _, _, _, _⟩ := spinnerRun_done s0 r1 r2 w n hn
  refine ⟨?_, spinnerOutcome_mem r1 r2 h10 h20, rfl⟩
  rw [hc, hcb]
  rfl

/-- C5 witness: a full spinner run at concrete random draws. -/
theorem c5_witness :
    (0 : ℚ) ≤ 1/2 ∧ (1/2 : ℚ) < 1 ∧ spinnerInit.callbacks = [] ∧
    (spinnerTicks 3900 (spinnerStart spinnerInit (1/2) (1/2) 0)).callbacks =
      [spinnerOutcome (1/2) (1/2)] ∧
    spinnerOutcome (1/2) (1/2) ∈ DONATION_AMOUNTS :=
  ⟨by norm_num, by norm_num, rfl,
    (c5_amount_once_in_set (1/2) (1/2) spinnerInit 0 3900 (by norm_num) (by norm_num)
      (by norm_num) (by norm_num) rfl (by norm_num)).1,
    (c5_amount_once_in_set (1/2) (1/2) spinnerInit 0 3900 (by norm_num) (by norm_num)
      (by norm_num) (by norm_num) rfl (by norm_num)).2.1⟩

/-- C6: the picker draws its final charity at the moment spinning starts
(uniformly: the draw hits index `i` exactly for `r` in `[i/6, (i+1)/6)`),
independently of the display cycling state; after the 4000ms duration it
invokes the callback exactly once with that predetermined charity, and once
stopped it displays it and cycles no further. -/
theorem c6_charity_predetermined (r : ℚ) (s0 : PickerState) (n q : ℕ)
    (h0 : 0 ≤ r) (h1 : r < 1) (hcb : s0.callbacks = []) (hn : 4000 ≤ n) :
    (pickerStart s0 r).finalCharity = some (chosenCharity r) ∧
    (pickerTicks n (pickerStart s0 r)).callbacks = [chosenCharity r] ∧
    chosenCharity r ∈ CHARITIES ∧
    pickerDisplay false (pickerStop (pickerTicks n (pickerStart s0 r))) =
      (chosenCharity r).name ∧
    pickerTicks q (pickerStop (pickerTicks n (pickerStart s0 r))) =
      { pickerStop (pickerTicks n (pickerStart s0 r)) with
        time := (pickerStop (pickerTicks n (pickerStart s0 r))).time + q } ∧
    (pickerStart s0 r).finalCharity = (pickerStart pickerInit r).finalCharity ∧
    (∀ i : ℕ, chosenCharityIndex r = i ↔ ((i : ℚ) / 6 ≤ r ∧ r < ((i : ℚ) + 1) / 6)) := by
  obtain ⟨hc, hT, hf, hr⟩ := pickerRun_done s0 r n hn
  refine ⟨rfl, ?_, chosenCharity_mem r h0 h1, ?_, ?_, rfl,
    fun i => chosenCharityIndex_eq_iff r h0 i⟩
  · rw [hc, hcb]
    rfl
  · unfold pickerDisplay
    have hfs : (pickerStop (pickerTicks n (pickerStart s0 r))).finalCharity =
        some (chosenCharity r) := hf
    rw [if_neg (by simp), hfs]
  · exact pickerTicks_frozen _ rfl rfl q



/-- C6 witness: a full picker run at a concrete random draw. -/
theorem c6_witness :
    (0 : ℚ) ≤ 1/2 ∧ (1/2 : ℚ) < 1 ∧ pickerInit.callbacks = [] ∧
    (pickerStart pickerInit (1/2)).finalCharity = some (chosenCharity (1/2)) ∧
    (pickerTicks 4000 (pickerStart pickerInit (1/2))).callbacks = [chosenCharity (1/2)] ∧
    chosenCharity (1/2) ∈ CHARITIES ∧
    pickerDisplay false (pickerStop (pickerTicks 4000 (pickerStart pickerInit (1/2)))) =
      (chosenCharity (1/2)).name :=
  ⟨by norm_num, by norm_num, rfl,
    (c6_charity_predetermined (1/2) pickerInit 4000 1 (by norm_num) (by norm_num) rfl
      (by norm_num)).1,
    (c6_charity_predetermined (1/2) pickerInit 4000 1 (by norm_num) (by norm_num) rfl
      (by norm_num)).2.1,
    (c6_charity_predetermined (1/2) pickerInit 4000 1 (by norm_num) (by norm_num) rfl
      (by norm_num)).2.2.1,
    (c6_charity_predetermined (1/2) pickerInit 4000 1 (by norm_num) (by norm_num) rfl
      (by norm_num)).2.2.2.1⟩

/-- C7: if spinning stops before the fixed duration (3900ms spinner,
4000ms picker), cleanup cancels all pending timers, no callback ever fires
for that cycle and no further state change happens (ticks only advance the
clock); and a timer scheduled by a cancelled cycle never emits after a new
spin begins: a restarted cycle reports exactly its own outcome. -/
theorem c7_cancellation_and_stale_timers
    (sS : SpinnerState) (sP : PickerState) (r1 r2 rP r1' r2' rP' : ℚ) (w w' : ℕ)
    (j k n m : ℕ) (hj : j < 3900) (hk : k < 4000)
    (hcbS : sS.callbacks = []) (hcbP : sP.callbacks = [])
    (hn : 3900 ≤ n) (hm : 4000 ≤ m) :
    (spinnerStop (spinnerTicks j (spinnerStart sS r1 r2 w))).callbacks = [] ∧
    spinnerTicks n (spinnerStop (spinnerTicks j (spinnerStart sS r1 r2 w))) =
      { spinnerStop (spinnerTicks j (spinnerStart sS r1 r2 w)) with
        time := (spinnerStop (spinnerTicks j (spinnerStart sS r1 r2 w))).time + n } ∧
    (pickerStop (pickerTicks k (pickerStart sP rP))).callbacks = [] ∧
    pickerTicks m (pickerStop (pickerTicks k (pickerStart sP rP))) =
      { pickerStop (pickerTicks k (pickerStart sP rP)) with
        time := (pickerStop (pickerTicks k (pickerStart sP rP))).time + m } ∧
    (spinnerTicks n (spinnerStart (spinnerTicks j (spinnerStart sS r1 r2 w))
        r1' r2' w')).callbacks = [spinnerOutcome r1' r2'] ∧
    (pickerTicks m (pickerStart (pickerTicks k (pickerStart sP rP)) rP')).callbacks =
      [chosenCharity rP'] := by
  obtain ⟨hcS, _, _, _, _, _⟩ := spinnerRun_before sS r1 r2 w j hj
  obtain ⟨hcP, _, _, _, _, _⟩ := pickerRun_before sP rP k hk
  have hstopS : (spinnerStop (spinnerTicks j (spinnerStart sS r1 r2 w))).callbacks = [] := by
    show (spinnerTicks j (spinnerStart sS r1 r2 w)).callbacks = []
    rw [hcS, hcbS]
  have hstopP : (pickerStop (pickerTicks k (pickerStart sP rP))).callbacks = [] := by
    show (pickerTicks k (pickerStart sP rP)).callbacks = []
    rw [hcP, hcbP]
  refine ⟨hstopS, spinnerTicks_frozen _ rfl rfl n, hstopP, pickerTicks_frozen _ rfl rfl m,
    ?_, ?_⟩
  · obtain ⟨hc2, _, _, _, _⟩ :=
      spinnerRun_done (spinnerTicks j (spinnerStart sS r1 r2 w)) r1' r2' w' n hn
    rw [hc2, hcS, hcbS]
    rfl
  · obtain ⟨hc2, _, _, _⟩ :=
      pickerRun_done (pickerTicks k (pickerStart sP rP)) rP' m hm
    rw [hc2, hcP, hcbP]
    rfl

/-- C7 witness: cancellation at 100ms/200ms and restarts, concretely. -/
theorem c7_witness :
    (100 : ℕ) < 3900 ∧ (200 : ℕ) < 4000 ∧
    spinnerInit.callbacks = [] ∧ pickerInit.callbacks = [] ∧
    (spinnerStop (spinnerTicks 100 (spinnerStart spinnerInit 0 0 0))).callbacks = [] ∧
    (pickerStop (pickerTicks 200 (pickerStart pickerInit 0))).callbacks = [] ∧
    (spinnerTicks 3900 (spinnerStart (spinnerTicks 100 (spinnerStart spinnerInit 0 0 0))
        0 0 0)).callbacks = [spinnerOutcome 0 0] ∧
    (pickerTicks 4000 (pickerStart (pickerTicks 200 (pickerStart pickerInit 0))
        0)).callbacks = [chosenCharity 0] :=
  ⟨by norm_num, by norm_num, rfl, rfl,
    (c7_cancellation_and_stale_timers spinnerInit pickerInit 0 0 0 0 0 0 0 0
      100 200 3900 4000 (by norm_num) (by norm_num) rfl rfl (by norm_num) (by norm_num)).1,
    (c7_cancellation_and_stale_timers spinnerInit pickerInit 0 0 0 0 0 0 0 0
      100 200 3900 4000 (by norm_num) (by norm_num) rfl rfl (by norm_num)
      (by norm_num)).2.2.1,
    (c7_cancellation_and_stale_timers spinnerInit pickerInit 0 0 0 0 0 0 0 0
      100 200 3900 4000 (by norm_num) (by norm_num) rfl rfl (by norm_num)
      (by norm_num)).2.2.2.2.1,
    (c7_cancellation_and_stale_timers spinnerInit pickerInit 0 0 0 0 0 0 0 0
      100 200 3900 4000 (by norm_num) (by norm_num) rfl rfl (by norm_num)
      (by norm_num)).2.2.2.2.2⟩



theorem hexChar_mem (n : ℕ) (h : n < 16) : hexChar n ∈ hexCharList := by
  unfold hexChar
  have hl : n < hexCharList.length := h
  rw [List.getD_eq_getElem hexCharList (Char.ofNat 48) hl]
  exact List.getElem_mem hl

theorem floor16_toNat_lt (r : ℚ) (h0 : 0 ≤ r) (h1 : r < 1) : (⌊r * 16⌋).toNat < 16 := by
  have ha : (0 : ℤ) ≤ ⌊r * 16⌋ := Int.floor_nonneg.mpr (by positivity)
  have hb : ⌊r * 16⌋ < 16 := by
    rw [Int.floor_lt]
    push_cast
    nlinarith
  omega

/-- C8: `sendDonation` always resolves successfully with `txHash` the
string `0x` followed by 64 lowercase hex characters generated from the
random draws, never sets the error field, and the completed dialog view
displays exactly that identifier. -/
theorem c8_sendDonation_always_succeeds (wId addr : String) (amount : ℚ) (rs : List ℚ)
    (hlen : rs.length = 64) (hb : ∀ r ∈ rs, 0 ≤ r ∧ r < 1)
    (m : ModalState) (av : List Wallet) (ch : Charity) (amt2 : ℚ) :
    (sendDonation wId addr amount rs).success = true ∧
    (sendDonation wId addr amount rs).error = none ∧
    (sendDonation wId addr amount rs).txHash = some (mkTxHash rs) ∧
    mkTxHash rs = "0x" ++ String.mk (rs.map fun r => hexChar (⌊r * 16⌋).toNat) ∧
    (String.mk (rs.map fun r => hexChar (⌊r * 16⌋).toNat)).length = 64 ∧
    (mkTxHash rs).length = 66 ∧
    (∀ c ∈ (String.mk (rs.map fun r => hexChar (⌊r * 16⌋).toNat)).data, c ∈ hexCharList) ∧
    modalRender (some (mkTxHash rs)) m av ch amt2 =
      ModalView.completed (mkTxHash rs) ch.name amt2 := by
  have hmklen : (String.mk (rs.map fun r => hexChar (⌊r * 16⌋).toNat)).length = 64 := by
    show (rs.map fun r => hexChar (⌊r * 16⌋).toNat).length = 64
    rw [List.length_map, hlen]
  refine ⟨rfl, rfl, rfl, rfl, hmklen, ?_, ?_, rfl⟩
  · show ("0x" ++ String.mk (rs.map fun r => hexChar (⌊r * 16⌋).toNat)).length = 66
    rw [String.length_append, hmklen]
    rfl
  · intro c hcmem
    have hmem2 : c ∈ rs.map fun r => hexChar (⌊r * 16⌋).toNat := hcmem
    obtain ⟨r, hrmem, hre⟩ := List.mem_map.mp hmem2
    obtain ⟨h0, h1⟩ := hb r hrmem
    rw [← hre]
    exact hexChar_mem _ (floor16_toNat_lt r h0 h1)

/-- C8 witness: `sendDonation` on 64 concrete zero draws. -/
theorem c8_witness :
    (List.replicate 64 (0 : ℚ)).length = 64 ∧
    (sendDonation "metamask"
      "0x1234567890123456789012345678901234567890" 1 (List.replicate 64 0)).success = true ∧
    (sendDonation "metamask"
      "0x1234567890123456789012345678901234567890" 1 (List.replicate 64 0)).error = none ∧
    (mkTxHash (List.replicate 64 0)).length = 66 ∧
    modalRender (some (mkTxHash (List.replicate 64 0))) modalInit wallets
      (CHARITIES.getD 0 charityFallback) 1 =
      ModalView.completed (mkTxHash (List.replicate 64 0))
        (CHARITIES.getD 0 charityFallback).name 1 := by
  have hlen : (List.replicate 64 (0 : ℚ)).length = 64 := by simp
  have hb : ∀ r ∈ List.replicate 64 (0 : ℚ), 0 ≤ r ∧ r < 1 := by
    intro r hr
    rw [List.eq_of_mem_replicate hr]
    norm_num
  have happ := c8_sendDonation_always_succeeds "metamask"
    "0x1234567890123456789012345678901234567890" 1 (List.replicate 64 0) hlen hb
    modalInit wallets (CHARITIES.getD 0 charityFallback) 1
  exact ⟨hlen, happ.1, happ.2.1, happ.2.2.2.2.2.1, happ.2.2.2.2.2.2.2⟩

/-- C9 counterexample: a rejection whose error message is the empty string
is stored, but the empty string is falsy in the render, so the dialog shows
the wallet list again instead of an error view with a retry control,
refuting the claim for every rejecting attempt. -/
theorem c9_counterexample :
    isFailureOutcome (SendOutcome.rejected "") = true ∧
    (handleDonateWithWallet modalInit (SendOutcome.rejected "")).2 = [] ∧
    (handleDonateWithWallet modalInit (SendOutcome.rejected "")).1.error = some "" ∧
    modalRender none (handleDonateWithWallet modalInit (SendOutcome.rejected "")).1
      wallets (CHARITIES.getD 0 charityFallback) 1 = ModalView.walletSelect wallets :=
  ⟨rfl, rfl, rfl, rfl⟩

/-- C9 (amended): for a failing submission outcome whose resulting message
is non-empty (every resolved failure defaults to "Transaction failed";
only an empty rejection message escapes), the dialog stores the message,
stops processing, renders the error view with that message and a retry
control, does not invoke the completion callback (leaving the parent's
receipt unchanged), and the retry control returns to the wallet-selection
view without re-submitting. -/
theorem c9_failure_shows_error_and_retry (m : ModalState) (o : SendOutcome)
    (av : List Wallet) (ch : Charity) (amt : ℚ) (t : Option String)
    (hf : isFailureOutcome o = true) (hmsg : failureMessage o ≠ "") :
    (handleDonateWithWallet m o).2 = [] ∧
    applyDonationCallbacks t (handleDonateWithWallet m o).2 = t ∧
    (handleDonateWithWallet m o).1.isProcessing = false ∧
    (handleDonateWithWallet m o).1.error = some (failureMessage o) ∧
    modalRender none (handleDonateWithWallet m o).1 av ch amt =
      ModalView.errorRetry (failureMessage o) ∧
    (retryAction (handleDonateWithWallet m o).1).error = none ∧
    (retryAction (handleDonateWithWallet m o).1).isProcessing = false ∧
    modalRender none (retryAction (handleDonateWithWallet m o).1) av ch amt =
      ModalView.walletSelect av := by
  have hbeq : (failureMessage o == "") = false := by
    rw [beq_eq_false_iff_ne]
    exact hmsg
  cases o with
  | rejected msg =>
    refine ⟨rfl, rfl, rfl, rfl, ?_, rfl, rfl, rfl⟩
    show (if (failureMessage (SendOutcome.rejected msg) == "") = true
      then ModalView.walletSelect av
      else ModalView.errorRetry (failureMessage (SendOutcome.rejected msg))) = _
    rw [hbeq]
    simp
  | resolved r =>
    have hcond : (r.success && r.txHash.getD "" != "") = false := by
      have := hf
      simp only [isFailureOutcome, Bool.not_eq_true'] at this
      exact this
    have hstep : handleDonateWithWallet m (SendOutcome.resolved r) =
        ({ m with
            isProcessing := false
            error := some (failureMessage (SendOutcome.resolved r)) }, []) := by
      simp [handleDonateWithWallet, hcond]
    rw [hstep]
    refine ⟨rfl, rfl, rfl, rfl, ?_, rfl, rfl, rfl⟩
    show (if (failureMessage (SendOutcome.resolved r) == "") = true
      then ModalView.walletSelect av
      else ModalView.errorRetry (failureMessage (SendOutcome.resolved r))) = _
    rw [hbeq]
    simp

/-- C9 witness: a concrete rejected attempt with a non-empty message. -/
theorem c9_witness :
    isFailureOutcome (SendOutcome.rejected "Network error") = true ∧
    failureMessage (SendOutcome.rejected "Network error") ≠ "" ∧
    (handleDonateWithWallet modalInit (SendOutcome.rejected "Network error")).2 = [] ∧
    modalRender none
      (handleDonateWithWallet modalInit (SendOutcome.rejected "Network error")).1
      wallets (CHARITIES.getD 0 charityFallback) 1 =
      ModalView.errorRetry "Network error" ∧
    modalRender none
      (retryAction (handleDonateWithWallet modalInit
        (SendOutcome.rejected "Network error")).1)
      wallets (CHARITIES.getD 0 charityFallback) 1 =
      ModalView.walletSelect wallets := by
  have happ := c9_failure_shows_error_and_retry modalInit
    (SendOutcome.rejected "Network error") wallets (CHARITIES.getD 0 charityFallback) 1
    none rfl (by decide)
  exact ⟨rfl, by decide, happ.1, happ.2.2.2.2.1, happ.2.2.2.2.2.2.2⟩

end DonationRoulette
